import Mathlib

/-!
Shallow embedding of the auction bidding core of the `vehicle-auc` repository.

Money amounts (SQL `Numeric(10,2)` columns and the Python `float` conversions
in the routes) are embedded as exact rationals `ℚ`; timestamps (`DateTime`
columns compared with `<=`) as integers `ℤ`.  The route handler
`place_bid` (src/app/routes/auctions.py) is embedded as a pure function from a
per-auction database snapshot and a request to a response together with the
snapshot after the transaction commits.
-/

namespace VehicleAuc

/-- Money: exact value of a `Numeric(10,2)` column / parsed `float` amount. -/
abbrev Money := ℚ

/-- Wall-clock instants, totally ordered like `datetime`. -/
abbrev Time := ℤ

/-- `auction_status` enum of src/app/models/auction.py. -/
inductive AuctionStatus
  | scheduled
  | active
  | ended
  | cancelled
deriving Repr, DecidableEq

/-- The fields of `Vehicle` (src/app/models/vehicle.py) that the bidding
core reads: `starting_price` is `nullable=False`, `reserve_price` nullable. -/
structure Vehicle where
  id : ℕ
  starting_price : Money
  reserve_price : Option Money
deriving Repr, DecidableEq

/-- The fields of `User` (src/app/models/user.py) that bidding reads:
`id_verified_at` and `authorize_payment_profile_id` are nullable columns. -/
structure User where
  id : ℕ
  id_verified_at : Option Time
  authorize_payment_profile_id : Option ℕ
deriving Repr, DecidableEq

/-- `User.is_id_verified`: `id_verified_at is not None`. -/
def User.is_id_verified (u : User) : Bool :=
  u.id_verified_at.isSome

/-- `User.has_payment_method`: `authorize_payment_profile_id is not None`. -/
def User.has_payment_method (u : User) : Bool :=
  u.authorize_payment_profile_id.isSome

/-- `User.can_bid`: `is_id_verified and has_payment_method`. -/
def User.can_bid (u : User) : Bool :=
  u.is_id_verified && u.has_payment_method

/-- The `Auction` row (src/app/models/auction.py).  `current_bid` has column
default `0` and `bid_count` default `0`. -/
structure Auction where
  id : ℕ
  vehicle_id : ℕ
  status : AuctionStatus
  starts_at : Time
  ends_at : Time
  extended_count : ℕ
  current_bid : Money
  bid_count : ℕ
  winner_id : Option ℕ
deriving Repr, DecidableEq

/-- `Auction.is_active`: `status == 'active' and starts_at <= now <= ends_at`. -/
def Auction.is_active (a : Auction) (now : Time) : Bool :=
  a.status == AuctionStatus.active && decide (a.starts_at ≤ now) &&
    decide (now ≤ a.ends_at)

/-- The `Bid` row (src/app/models/auction.py). -/
structure Bid where
  id : ℕ
  auction_id : ℕ
  user_id : ℕ
  amount : Money
  max_bid : Option Money
  is_auto_bid : Bool
  created_at : Time
deriving Repr, DecidableEq

/-- The raw `amount` field of the JSON body of a bid request, as `place_bid`
sees it after `data.get('amount')`:
* `missing`  — the key is absent or its value is falsy (`None`, `0`, `""`),
  so `if not amount` rejects it as required;
* `unparseable` — the value is truthy but `float(amount)` raises;
* `value q` — the value is truthy and `float(amount)` returns `q` (note a
  JSON string `"0"` is truthy and parses to `0`, so `value 0` is reachable). -/
inductive RawAmount
  | missing
  | unparseable
  | value (q : Money)
deriving Repr, DecidableEq

/-- The JSON responses `place_bid` can produce (src/app/routes/auctions.py).
`belowMinimum` carries the minimum reported in the error message;
`accepted` carries the amount recorded in the success response. -/
inductive BidResult
  | notEligible
  | notActive
  | amountRequired
  | invalidAmount
  | belowMinimum (minBid : Money)
  | accepted (amount : Money)
deriving Repr, DecidableEq

/-- The per-auction database snapshot `place_bid` reads and writes: the
auction row, its vehicle row (`auction.vehicle`), and the persisted bids of
the auction in insertion order. -/
structure BidState where
  auction : Auction
  vehicle : Vehicle
  bids : List Bid
deriving Repr, DecidableEq

/-- Line 68 of src/app/routes/auctions.py:
`min_bid = float(auction.current_bid) + 100 if auction.current_bid else
float(auction.vehicle.starting_price)`.  By Python operator precedence this
is `(current_bid + 100) if current_bid else starting_price`: the `+ 100`
increment applies only when `current_bid` is truthy (nonzero). -/
def min_bid (a : Auction) (v : Vehicle) : Money :=
  if a.current_bid ≠ 0 then a.current_bid + 100 else v.starting_price

/-- `place_bid(auction_id)` of src/app/routes/auctions.py, for the auction
whose snapshot is `s`, invoked by `current_user = u` at wall-clock time
`now` with raw request amount `raw`; `bidId` is the primary key the insert
assigns to a new bid row.  Returns the JSON response paired with the
snapshot after the handler returns (unchanged unless the bid commits). -/
def place_bid (s : BidState) (u : User) (raw : RawAmount) (now : Time)
    (bidId : ℕ) : BidResult × BidState :=
  if !u.can_bid then
    (BidResult.notEligible, s)
  else if !(s.auction.is_active now) then
    (BidResult.notActive, s)
  else
    match raw with
    | RawAmount.missing => (BidResult.amountRequired, s)
    | RawAmount.unparseable => (BidResult.invalidAmount, s)
    | RawAmount.value amount =>
      let minBid := min_bid s.auction s.vehicle
      if amount < minBid then
        (BidResult.belowMinimum minBid, s)
      else
        let bid : Bid :=
          { id := bidId
            auction_id := s.auction.id
            user_id := u.id
            amount := amount
            max_bid := none
            is_auto_bid := false
            created_at := now }
        (BidResult.accepted amount,
          { s with
              auction :=
                { s.auction with
                    current_bid := amount
                    bid_count := s.auction.bid_count + 1 }
              bids := s.bids ++ [bid] })

/-- Does this response record a bid (the success branch of `place_bid`)? -/
def BidResult.isAccepted : BidResult → Bool
  | BidResult.accepted _ => true
  | _ => false

/-- One bid request, as `place_bid` receives it. -/
structure BidRequest where
  user : User
  raw : RawAmount
  now : Time
  bidId : ℕ
deriving Repr, DecidableEq

/-- A sequence of `place_bid` calls against the same auction, each
committing its state before the next begins. -/
def run_bids (s : BidState) (rs : List BidRequest) : BidState :=
  rs.foldl (fun t r => (place_bid t r.user r.raw r.now r.bidId).2) s

/-! ### The bid ledger ordering

Line 46 of src/app/models/auction.py declares
`bids = db.relationship('Bid', ..., order_by='Bid.amount.desc()')`: the rows
come back sorted by `amount` descending and by nothing else; the relative
order of equal-amount rows is whatever the database returns.  A list `l` is
a possible presentation of the stored rows `stored` iff it is a permutation
of them that is weakly sorted by amount descending. -/

/-- Weakly sorted by `amount` descending: the only ordering the
`order_by='Bid.amount.desc()'` clause constrains. -/
def bidsAmountDesc (l : List Bid) : Prop :=
  l.Sorted (fun b1 b2 => b2.amount ≤ b1.amount)

instance : DecidablePred bidsAmountDesc := fun l =>
  List.decidableSorted l

/-- `l` is a presentation the database may return for the stored rows
`stored` under the source's `order_by` clause. -/
def isBidsPresentation (stored l : List Bid) : Prop :=
  stored.Perm l ∧ bidsAmountDesc l

instance (stored l : List Bid) : Decidable (isBidsPresentation stored l) :=
  inferInstanceAs (Decidable (_ ∧ _))

/-- `Auction.highest_bid`: `self.bids.first()` — the first row of the
presented list, `None` when there are no bids. -/
def highest_bid (l : List Bid) : Option Bid :=
  l.head?

/-! ### Orders -/

/-- `order_status` enum of src/app/models/order.py. -/
inductive OrderStatus
  | pending_payment
  | paid
  | title_processing
  | transport_scheduled
  | in_transit
  | delivered
  | completed
  | cancelled
  | refunded
deriving Repr, DecidableEq

/-- The `Order` row (src/app/models/order.py).  In the schema `id` is the
primary key and `order_number` is declared `unique=True`; `auction_id` and
`offer_id` are plain nullable foreign keys with no uniqueness constraint. -/
structure Order where
  id : ℕ
  order_number : String
  auction_id : Option ℕ
  offer_id : Option ℕ
  buyer_id : ℕ
  seller_id : ℕ
  vehicle_id : ℕ
  vehicle_price : Money
  buyer_fee : Money
  transport_fee : Option Money
  title_fee : Money
  tax : Money
  total : Money
  status : OrderStatus
deriving Repr, DecidableEq

/-- The uniqueness checks the `orders` table performs on insert, exactly the
columns the schema marks unique: the primary key `id` and `order_number`.
No column ties an Order to at most one Auction. -/
def orderInsertOK (os : List Order) (o : Order) : Bool :=
  os.all fun p => decide (p.id ≠ o.id) && decide (p.order_number ≠ o.order_number)

/-- Inserting an `Order` row: fails (uniqueness violation) exactly when a
stored row collides on a column the schema declares unique. -/
def insertOrder (os : List Order) (o : Order) : Option (List Order) :=
  if orderInsertOK os o then some (os ++ [o]) else none

/-- Modelled from the spec: the Order Factory (`create_order_from_auction`,
spec §4.4) is absent from src/ — no code under src/ constructs an `Order`;
only the unit test does, supplying every column directly.  Per the spec the
factory computes `buyer_fee` from a configured fee schedule, `title_fee` as
a flat configured amount, `tax` per jurisdiction rule, leaves
`transport_fee` null until a transport quote is obtained later, sets
`total` to the sum of all components at creation time, and fails with
`NoWinner` on an auction closed without a winning bid. -/
def create_order_from_auction (a : Auction) (winning : Option Bid)
    (sellerId vehicleId : ℕ) (feeSchedule : Money → Money) (titleFee : Money)
    (taxOf : Money → Money) (orderId : ℕ) (orderNumber : String) :
    Option Order :=
  match winning with
  | none => none
  | some wb =>
    some
      { id := orderId
        order_number := orderNumber
        auction_id := some a.id
        offer_id := none
        buyer_id := wb.user_id
        seller_id := sellerId
        vehicle_id := vehicleId
        vehicle_price := wb.amount
        buyer_fee := feeSchedule wb.amount
        transport_fee := none
        title_fee := titleFee
        tax := taxOf wb.amount
        total := wb.amount + feeSchedule wb.amount + titleFee + taxOf wb.amount
        status := OrderStatus.pending_payment }

/-- The Order constructed by `TestOrderModel.test_order_creation`
(src/tests/unit/test_models.py lines 137–157): the one Order the repository
itself ever builds, with `transport_fee` and `tax` left at their defaults
(`None` and `0`). -/
def testOrder : Order :=
  { id := 1
    order_number := "ORD-2024-00001"
    auction_id := some 1
    offer_id := none
    buyer_id := 2
    seller_id := 1
    vehicle_id := 1
    vehicle_price := 16000
    buyer_fee := 800
    transport_fee := none
    title_fee := 75
    tax := 0
    total := 16875
    status := OrderStatus.pending_payment }

/-! ### Concrete fixtures (shaped like src/tests/conftest.py) -/

/-- A bidder with verified ID and a payment profile (`verified_user`). -/
def userEligible : User :=
  { id := 2, id_verified_at := some 0, authorize_payment_profile_id := some 77 }

/-- A bidder with neither verification nor payment profile (`test_user`). -/
def userUnverified : User :=
  { id := 3, id_verified_at := none, authorize_payment_profile_id := none }

/-- A vehicle listed at 5000 with a 20000 reserve. -/
def vehicleFresh : Vehicle :=
  { id := 1, starting_price := 5000, reserve_price := some 20000 }

/-- An active auction with no bids yet: `current_bid` at its column
default `0`, running from time 0 to time 1000. -/
def auctionFresh : Auction :=
  { id := 1, vehicle_id := 1, status := AuctionStatus.active, starts_at := 0
    ends_at := 1000, extended_count := 0, current_bid := 0, bid_count := 0
    winner_id := none }

/-- Snapshot of the fresh auction. -/
def stateFresh : BidState :=
  { auction := auctionFresh, vehicle := vehicleFresh, bids := [] }

/-- The one persisted bid of the 15000 scenario. -/
def bidPrior : Bid :=
  { id := 1, auction_id := 1, user_id := 9, amount := 15000, max_bid := none
    is_auto_bid := false, created_at := 50 }

/-- An active auction whose current price is 15000 after one bid. -/
def state15000 : BidState :=
  { auction := { auctionFresh with current_bid := 15000, bid_count := 1 }
    vehicle := { vehicleFresh with starting_price := 15000, reserve_price := none }
    bids := [bidPrior] }

/-- The fresh auction after its status moved to `ended`. -/
def stateEnded : BidState :=
  { stateFresh with auction := { auctionFresh with status := AuctionStatus.ended } }

/-- The fresh auction whose vehicle's `starting_price` was set to −50 via
`update_vehicle` (src/app/routes/api/vehicles.py), which unlike
`create_vehicle` does not validate the new price. -/
def stateNegStart : BidState :=
  { stateFresh with
      vehicle := { id := 1, starting_price := -50, reserve_price := none } }

/-! ### C1 — minimum bid computation -/

/-- C1 fails on the code: by Python operator precedence, line 68 of
src/app/routes/auctions.py computes `(current_bid + 100) if current_bid
else starting_price`, so with zero bids the minimum is `starting_price`
alone, not `starting_price + 100`.  On the fresh auction (starting price
5000, no bids) an eligible bidder's bid of exactly 5000 — strictly below
the claimed minimum 5100 — is accepted rather than rejected. -/
theorem c1_zero_bids_min_counterexample :
    (place_bid stateFresh userEligible (RawAmount.value 5000) 100 1).1 =
      BidResult.accepted 5000 ∧
    (5000 : Money) < stateFresh.vehicle.starting_price + 100 ∧
    stateFresh.auction.bid_count = 0 := by
  refine ⟨by decide, ?_, by decide⟩
  show (5000 : Money) < vehicleFresh.starting_price + 100
  norm_num [vehicleFresh]

/-- C1 amended: for an active auction and eligible bidder, the minimum
acceptable amount is `current_bid + 100` when `current_bid` is nonzero and
the vehicle's `starting_price` alone (no increment) when no bid has been
recorded; the bid is rejected as below minimum, reporting that minimum,
exactly when the proposed amount is strictly less than it. -/
theorem c1_min_bid_corrected (s : BidState) (u : User) (q : Money) (now : Time)
    (bidId : ℕ) (hu : u.can_bid = true) (ha : s.auction.is_active now = true) :
    min_bid s.auction s.vehicle =
      (if s.auction.current_bid ≠ 0 then s.auction.current_bid + 100
       else s.vehicle.starting_price) ∧
    ((place_bid s u (RawAmount.value q) now bidId).1 =
        BidResult.belowMinimum (min_bid s.auction s.vehicle) ↔
      q < min_bid s.auction s.vehicle) := by
  refine ⟨rfl, ?_⟩
  unfold place_bid
  simp only [hu, Bool.not_true, Bool.false_eq_true, if_false, ha]
  split
  · simp_all
  · simp_all

/-- Witness for `c1_min_bid_corrected` at the fresh auction with a bid
of 4000. -/
theorem c1_min_bid_corrected_witness :
    userEligible.can_bid = true ∧ stateFresh.auction.is_active 100 = true ∧
    (min_bid stateFresh.auction stateFresh.vehicle =
      (if stateFresh.auction.current_bid ≠ 0 then stateFresh.auction.current_bid + 100
       else stateFresh.vehicle.starting_price) ∧
     ((place_bid stateFresh userEligible (RawAmount.value 4000) 100 1).1 =
        BidResult.belowMinimum (min_bid stateFresh.auction stateFresh.vehicle) ↔
      (4000 : Money) < min_bid stateFresh.auction stateFresh.vehicle)) :=
  ⟨by decide, by decide,
    c1_min_bid_corrected stateFresh userEligible 4000 100 1 (by decide) (by decide)⟩

/-! ### C2 — order of the eligibility and active checks -/

/-- C2 fails on the code: `place_bid` checks `current_user.can_bid` before
`auction.is_active` (lines 36 and 43 of src/app/routes/auctions.py), so an
ineligible bidder on an ended auction gets the eligibility rejection, not
`NotActive`. -/
theorem c2_order_of_checks_counterexample :
    (place_bid stateEnded userUnverified (RawAmount.value 6000) 100 1).1 =
      BidResult.notEligible ∧
    stateEnded.auction.is_active 100 = false ∧
    userUnverified.can_bid = false ∧
    BidResult.notEligible ≠ BidResult.notActive := by decide

/-- C2 amended: the eligibility check is applied before the not-active
check — whenever the bidder lacks verified identity or a payment method,
`place_bid` returns the eligibility rejection, whatever the auction's
status and however `now` relates to its window. -/
theorem c2_order_of_checks_corrected (s : BidState) (u : User) (raw : RawAmount)
    (now : Time) (bidId : ℕ) (hu : u.can_bid = false) :
    (place_bid s u raw now bidId).1 = BidResult.notEligible := by
  unfold place_bid
  simp [hu]

/-- Witness for `c2_order_of_checks_corrected`: an unverified bidder on an
ended auction. -/
theorem c2_order_of_checks_corrected_witness :
    userUnverified.can_bid = false ∧
    (place_bid stateEnded userUnverified (RawAmount.value 6000) 100 1).1 =
      BidResult.notEligible :=
  ⟨by decide,
    c2_order_of_checks_corrected stateEnded userUnverified (RawAmount.value 6000)
      100 1 (by decide)⟩

/-! ### C3 — the 15,000 / 15,050 / 15,100 scenario -/

/-- C3 holds: on an active auction with current price 15000, an eligible
bidder's 15050 is rejected as below the minimum 15100 leaving the snapshot
unchanged, while 15100 is accepted; afterwards `current_bid` is 15100 and
`bid_count` has grown by exactly 1. -/
theorem c3_scenario_confirmed :
    (place_bid state15000 userEligible (RawAmount.value 15050) 100 2).1 =
      BidResult.belowMinimum 15100 ∧
    (place_bid state15000 userEligible (RawAmount.value 15050) 100 2).2 =
      state15000 ∧
    (place_bid state15000 userEligible (RawAmount.value 15100) 100 2).1 =
      BidResult.accepted 15100 ∧
    (place_bid state15000 userEligible (RawAmount.value 15100) 100 2).2.auction.current_bid =
      15100 ∧
    (place_bid state15000 userEligible (RawAmount.value 15100) 100 2).2.auction.bid_count =
      state15000.auction.bid_count + 1 := by
  have hmin : min_bid state15000.auction state15000.vehicle = 15100 := by
    norm_num [min_bid, state15000, auctionFresh]
  refine ⟨?_, ?_, ?_, ?_, ?_⟩ <;>
    · unfold place_bid
      rw [hmin]
      norm_num [state15000, auctionFresh, vehicleFresh, userEligible, User.can_bid,
        User.is_id_verified, User.has_payment_method, Auction.is_active]

/-! ### C4 — monotonicity of the current price -/

/-- `place_bid` never touches the vehicle row. -/
theorem place_bid_vehicle_eq (s : BidState) (u : User) (raw : RawAmount)
    (now : Time) (bidId : ℕ) :
    (place_bid s u raw now bidId).2.vehicle = s.vehicle := by
  unfold place_bid
  split
  · rfl
  split
  · rfl
  cases raw with
  | missing => rfl
  | unparseable => rfl
  | value q =>
    dsimp only
    split
    · rfl
    · rfl

/-- One `place_bid` call cannot lower `current_bid` as long as the
vehicle's starting price is non-negative. -/
theorem place_bid_current_bid_mono (s : BidState) (u : User) (raw : RawAmount)
    (now : Time) (bidId : ℕ) (hv : 0 ≤ s.vehicle.starting_price) :
    s.auction.current_bid ≤ (place_bid s u raw now bidId).2.auction.current_bid := by
  unfold place_bid
  split
  · exact le_refl _
  split
  · exact le_refl _
  cases raw with
  | missing => exact le_refl _
  | unparseable => exact le_refl _
  | value q =>
    dsimp only
    split
    · exact le_refl _
    · rename_i hnotlt
      rw [not_lt] at hnotlt
      unfold min_bid at hnotlt
      by_cases hz : s.auction.current_bid = 0
      · rw [if_neg (by simp [hz])] at hnotlt
        simp only [hz]
        linarith
      · rw [if_pos hz] at hnotlt
        simp only []
        linarith

/-- C4 fails on the code: vehicle creation validates `starting_price > 0`
but `update_vehicle` does not, so a vehicle under an active auction can
carry starting price −50; on that auction (current price at its default 0)
an eligible bidder's bid of −50 is accepted — `-50 ≥ min_bid = -50` — and
`current_bid` drops from 0 to −50. -/
theorem c4_monotonic_counterexample :
    (place_bid stateNegStart userEligible (RawAmount.value (-50)) 100 1).1 =
      BidResult.accepted (-50) ∧
    (place_bid stateNegStart userEligible (RawAmount.value (-50)) 100 1).2.auction.current_bid <
      stateNegStart.auction.current_bid := by decide

/-- C4 amended: provided the vehicle's starting price is non-negative (as
`create_vehicle` enforces but `update_vehicle` does not re-check), no
sequence of `place_bid` calls ever lowers `current_bid`: after any run of
requests the auction's current price is at least what it was before. -/
theorem c4_monotonic_corrected (s : BidState) (rs : List BidRequest)
    (hv : 0 ≤ s.vehicle.starting_price) :
    s.auction.current_bid ≤ (run_bids s rs).auction.current_bid := by
  induction rs generalizing s with
  | nil => exact le_refl _
  | cons r rest ih =>
    have hstep := place_bid_current_bid_mono s r.user r.raw r.now r.bidId hv
    have hveh := place_bid_vehicle_eq s r.user r.raw r.now r.bidId
    have hrec := ih (place_bid s r.user r.raw r.now r.bidId).2 (by rw [hveh]; exact hv)
    calc s.auction.current_bid
        ≤ (place_bid s r.user r.raw r.now r.bidId).2.auction.current_bid := hstep
      _ ≤ (run_bids (place_bid s r.user r.raw r.now r.bidId).2 rest).auction.current_bid := hrec
      _ = (run_bids s (r :: rest)).auction.current_bid := rfl

/-- Witness for `c4_monotonic_corrected`: two requests against the fresh
auction. -/
theorem c4_monotonic_corrected_witness :
    (0 : Money) ≤ stateFresh.vehicle.starting_price ∧
    stateFresh.auction.current_bid ≤
      (run_bids stateFresh
        [⟨userEligible, RawAmount.value 6000, 100, 1⟩,
         ⟨userUnverified, RawAmount.value 7000, 150, 2⟩]).auction.current_bid :=
  ⟨by decide,
    c4_monotonic_corrected stateFresh
      [⟨userEligible, RawAmount.value 6000, 100, 1⟩,
       ⟨userUnverified, RawAmount.value 7000, 150, 2⟩] (by decide)⟩

/-! ### C5 — no Order-per-Auction uniqueness constraint -/

/-- A second order for the same auction, differing only in key and order
number (src/tests/unit/test_models.py supplies the first one's values). -/
def testOrderDup : Order :=
  { testOrder with id := 2, order_number := "ORD-2024-00002" }

/-- C5 fails on the code: the `orders` schema (src/app/models/order.py)
declares uniqueness only for `id` and `order_number`; `auction_id` carries
no unique constraint (contrast `Invoice.order_id`, which has one).
Inserting a second Order that references the same auction succeeds instead
of failing with a uniqueness violation. -/
theorem c5_order_uniqueness_counterexample :
    insertOrder [] testOrder = some [testOrder] ∧
    insertOrder [testOrder] testOrderDup = some [testOrder, testOrderDup] ∧
    testOrder.auction_id = some 1 ∧
    testOrderDup.auction_id = some 1 ∧
    testOrder ≠ testOrderDup := by decide

/-- C5 amended: the persistence layer enforces uniqueness of `id` and
`order_number` only; a second Order referencing the same auction is
accepted as a second row whenever its key and order number are fresh. -/
theorem c5_order_uniqueness_corrected (o1 o2 : Order)
    (hsame : o1.auction_id = o2.auction_id) (hid : o1.id ≠ o2.id)
    (hnum : o1.order_number ≠ o2.order_number) :
    insertOrder [o1] o2 = some [o1, o2] := by
  unfold insertOrder orderInsertOK
  simp [hid, hnum]

/-- Witness for `c5_order_uniqueness_corrected` at the test order and its
duplicate. -/
theorem c5_order_uniqueness_corrected_witness :
    testOrder.auction_id = testOrderDup.auction_id ∧
    testOrder.id ≠ testOrderDup.id ∧
    testOrder.order_number ≠ testOrderDup.order_number ∧
    insertOrder [testOrder] testOrderDup = some [testOrder, testOrderDup] :=
  ⟨by decide, by decide, by decide,
    c5_order_uniqueness_corrected testOrder testOrderDup (by decide) (by decide)
      (by decide)⟩

/-! ### C6 — the Order total is the sum of its components -/

/-- C6 holds (Order Factory modelled from the spec, no such code under
src/): every order the factory produces has
`total = vehicle_price + buyer_fee + transport_fee(or 0) + title_fee + tax`
with `transport_fee` left null at creation, and the one Order the
repository itself constructs (the unit test's) satisfies the same sum. -/
theorem c6_order_total_confirmed :
    (∀ (a : Auction) (wb : Bid) (sellerId vehicleId : ℕ)
       (feeSchedule : Money → Money) (titleFee : Money) (taxOf : Money → Money)
       (orderId : ℕ) (orderNumber : String),
      ∃ o : Order,
        create_order_from_auction a (some wb) sellerId vehicleId feeSchedule
            titleFee taxOf orderId orderNumber = some o ∧
        o.transport_fee = none ∧
        o.total = o.vehicle_price + o.buyer_fee + o.transport_fee.getD 0 +
          o.title_fee + o.tax) ∧
    testOrder.total = testOrder.vehicle_price + testOrder.buyer_fee +
      testOrder.transport_fee.getD 0 + testOrder.title_fee + testOrder.tax := by
  constructor
  · intro a wb sellerId vehicleId feeSchedule titleFee taxOf orderId orderNumber
    refine ⟨_, rfl, rfl, ?_⟩
    show wb.amount + feeSchedule wb.amount + titleFee + taxOf wb.amount =
      wb.amount + feeSchedule wb.amount + (Option.getD none 0) + titleFee + taxOf wb.amount
    simp
  · norm_num [testOrder]

/-! ### C7 — the bid ledger's ordering and `highest_bid` -/

/-- The earlier-created of two equal-amount bids. -/
def bidEarly : Bid :=
  { id := 1, auction_id := 1, user_id := 9, amount := 500, max_bid := none
    is_auto_bid := false, created_at := 10 }

/-- The later-created of two equal-amount bids. -/
def bidLate : Bid :=
  { id := 2, auction_id := 1, user_id := 8, amount := 500, max_bid := none
    is_auto_bid := false, created_at := 20 }

/-- C7 fails on the code: the relationship is declared
`order_by='Bid.amount.desc()'` with no secondary key, so among equal
amounts the database may return the later-created bid first.  The
presentation `[bidLate, bidEarly]` of the stored rows
`[bidEarly, bidLate]` satisfies the source's ordering clause, yet the
later-created bid precedes and `highest_bid` returns it. -/
theorem c7_bid_order_counterexample :
    isBidsPresentation [bidEarly, bidLate] [bidLate, bidEarly] ∧
    highest_bid [bidLate, bidEarly] = some bidLate ∧
    bidLate.amount = bidEarly.amount ∧
    bidEarly.created_at < bidLate.created_at := by decide

/-- C7 amended: the ledger is ordered by amount descending only — the
relative order of equal-amount bids is whatever the database returns — so
`highest_bid` returns some bid of maximal amount, not necessarily the
earliest-created one. -/
theorem c7_bid_order_corrected (stored l : List Bid)
    (hp : isBidsPresentation stored l) (hne : l ≠ []) :
    ∃ b : Bid, highest_bid l = some b ∧ b ∈ stored ∧
      ∀ b' ∈ stored, b'.amount ≤ b.amount := by
  obtain ⟨hperm, hsort⟩ := hp
  cases l with
  | nil => exact absurd rfl hne
  | cons b t =>
    refine ⟨b, rfl, hperm.mem_iff.mpr (List.mem_cons_self b t), ?_⟩
    intro b' hb'
    rcases List.mem_cons.mp (hperm.mem_iff.mp hb') with h | h
    · exact le_of_eq (congrArg Bid.amount h)
    · exact List.rel_of_sorted_cons hsort b' h

/-- Witness for `c7_bid_order_corrected` at the two-bid presentation. -/
theorem c7_bid_order_corrected_witness :
    isBidsPresentation [bidEarly, bidLate] [bidLate, bidEarly] ∧
    ([bidLate, bidEarly] : List Bid) ≠ [] ∧
    (∃ b : Bid, highest_bid [bidLate, bidEarly] = some b ∧
      b ∈ [bidEarly, bidLate] ∧
      ∀ b' ∈ [bidEarly, bidLate], b'.amount ≤ b.amount) :=
  ⟨by decide, by decide,
    c7_bid_order_corrected [bidEarly, bidLate] [bidLate, bidEarly] (by decide)
      (by decide)⟩

/-! ### C8 — no anti-snipe extension -/

/-- C8 fails on the code: `place_bid` contains no anti-snipe logic at all.
On the fresh auction ending at time 1000 (minutes), an accepted bid at 999
— one minute before the end, inside a 2-minute threshold — leaves
`ends_at` at 1000 rather than extending it to 1005, and leaves
`extended_count` at 0 rather than incrementing it to 1. -/
theorem c8_antisnipe_counterexample :
    (place_bid stateFresh userEligible (RawAmount.value 5000) 999 1).1 =
      BidResult.accepted 5000 ∧
    stateFresh.auction.ends_at - 999 = 1 ∧
    (place_bid stateFresh userEligible (RawAmount.value 5000) 999 1).2.auction.ends_at =
      1000 ∧
    (1000 : Time) ≠ 1000 + 5 ∧
    (place_bid stateFresh userEligible (RawAmount.value 5000) 999 1).2.auction.extended_count =
      0 := by decide

/-- C8 amended: `place_bid` applies no anti-snipe rule — whatever the
request and however close to `ends_at` it arrives, the auction's window
and `extended_count` are unchanged. -/
theorem c8_antisnipe_corrected (s : BidState) (u : User) (raw : RawAmount)
    (now : Time) (bidId : ℕ) :
    (place_bid s u raw now bidId).2.auction.ends_at = s.auction.ends_at ∧
    (place_bid s u raw now bidId).2.auction.starts_at = s.auction.starts_at ∧
    (place_bid s u raw now bidId).2.auction.extended_count =
      s.auction.extended_count := by
  unfold place_bid
  split
  · exact ⟨rfl, rfl, rfl⟩
  split
  · exact ⟨rfl, rfl, rfl⟩
  cases raw with
  | missing => exact ⟨rfl, rfl, rfl⟩
  | unparseable => exact ⟨rfl, rfl, rfl⟩
  | value q =>
    dsimp only
    split
    · exact ⟨rfl, rfl, rfl⟩
    · exact ⟨rfl, rfl, rfl⟩

/-! ### C9 — rejections have no side effects -/

/-- C9 holds: whenever `place_bid` does not accept — ineligible bidder,
inactive auction, missing or unparseable amount, or amount below the
minimum — the database snapshot is returned unchanged: no bid row is
created and every auction field keeps its value. -/
theorem c9_reject_no_side_effects (s : BidState) (u : User) (raw : RawAmount)
    (now : Time) (bidId : ℕ)
    (h : (place_bid s u raw now bidId).1.isAccepted = false) :
    (place_bid s u raw now bidId).2 = s := by
  revert h
  unfold place_bid
  split
  · intro _; rfl
  split
  · intro _; rfl
  cases raw with
  | missing => intro _; rfl
  | unparseable => intro _; rfl
  | value q =>
    dsimp only
    split
    · intro _; rfl
    · intro h
      exact absurd h (by simp [BidResult.isAccepted])

/-- Witness for `c9_reject_no_side_effects`: a below-minimum bid on the
fresh auction. -/
theorem c9_reject_no_side_effects_witness :
    (place_bid stateFresh userEligible (RawAmount.value 4000) 100 1).1.isAccepted =
      false ∧
    (place_bid stateFresh userEligible (RawAmount.value 4000) 100 1).2 =
      stateFresh :=
  ⟨by decide,
    c9_reject_no_side_effects stateFresh userEligible (RawAmount.value 4000) 100 1
      (by decide)⟩

/-! ### C10 — the reserve price is never consulted -/

/-- C10 holds: `place_bid` never reads `reserve_price`.  For an active
auction and eligible bidder, any parsed amount at or above the computed
minimum is accepted and recorded — `current_bid` becomes the amount and
the bid row is appended — even when the amount is strictly below the
vehicle's reserve price. -/
theorem c10_reserve_ignored_confirmed (s : BidState) (u : User) (q : Money)
    (now : Time) (bidId : ℕ) (rp : Money) (hu : u.can_bid = true)
    (ha : s.auction.is_active now = true)
    (hmin : min_bid s.auction s.vehicle ≤ q)
    (hres : s.vehicle.reserve_price = some rp) (hlt : q < rp) :
    (place_bid s u (RawAmount.value q) now bidId).1 = BidResult.accepted q ∧
    (place_bid s u (RawAmount.value q) now bidId).2.auction.current_bid = q ∧
    (place_bid s u (RawAmount.value q) now bidId).2.bids =
      s.bids ++ [{ id := bidId, auction_id := s.auction.id, user_id := u.id,
                   amount := q, max_bid := none, is_auto_bid := false,
                   created_at := now }] := by
  unfold place_bid
  simp only [hu, Bool.not_true, Bool.false_eq_true, if_false, ha]
  rw [if_neg (not_lt.mpr hmin)]
  exact ⟨rfl, rfl, rfl⟩

/-- Witness for `c10_reserve_ignored_confirmed`: a 6000 bid on the fresh
auction, below its vehicle's 20000 reserve. -/
theorem c10_reserve_ignored_confirmed_witness :
    userEligible.can_bid = true ∧
    stateFresh.auction.is_active 100 = true ∧
    min_bid stateFresh.auction stateFresh.vehicle ≤ 6000 ∧
    stateFresh.vehicle.reserve_price = some 20000 ∧
    (6000 : Money) < 20000 ∧
    ((place_bid stateFresh userEligible (RawAmount.value 6000) 100 1).1 =
        BidResult.accepted 6000 ∧
      (place_bid stateFresh userEligible (RawAmount.value 6000) 100 1).2.auction.current_bid =
        6000 ∧
      (place_bid stateFresh userEligible (RawAmount.value 6000) 100 1).2.bids =
        stateFresh.bids ++
          [{ id := 1, auction_id := stateFresh.auction.id, user_id := userEligible.id,
             amount := 6000, max_bid := none, is_auto_bid := false,
             created_at := 100 }]) :=
  ⟨by decide, by decide, by decide, by decide, by decide,
    c10_reserve_ignored_confirmed stateFresh userEligible 6000 100 1 20000
      (by decide) (by decide) (by decide) (by decide) (by decide)⟩

end VehicleAuc
